import Mathlib

set_option maxHeartbeats 1000000

/-!
Shallow embedding of `src/generators/orbit.js` (planetgen).

The JavaScript module draws from two random sources:

* the seeded stream `random = splitmix32(seed)` — modelled by an explicit
  32-bit state `s : ℕ` threaded through every call, with `nextState`
  advancing the state and `nextVal` producing the value `out / 2^32`;
* the ambient `Math.random()` — modelled by an oracle `o : ℕ → ℝ` together
  with a consumption index `j : ℕ` (draw `k` returns `o k`).

JavaScript numbers are modelled by real numbers; the 32-bit integer
scrambler `splitmix32` is modelled exactly over `ℕ` with explicit
`% 2^32` truncation.  String-keyed `switch`/object lookups are modelled
as equality chains, mirroring their first-match semantics.
-/

namespace Planetgen

noncomputable section

/-- Math.imul: 32-bit truncating multiplication (we track uint32 bit patterns). -/
def imul32 (x y : ℕ) : ℕ := x * y % 4294967296

/-- Output scrambler of splitmix32, applied to the (already advanced) state `a`:
`t = a ^ a >>> 16; t = imul(t, 0x21f0aaad); t = t ^ t >>> 15;
 t = imul(t, 0x735a2d97); (t ^ t >>> 15) >>> 0`. -/
def splitmix32Out (a : ℕ) : ℕ :=
  let t1 := a ^^^ a >>> 16
  let t2 := imul32 t1 0x21f0aaad
  let t3 := t2 ^^^ t2 >>> 15
  let t4 := imul32 t3 0x735a2d97
  t4 ^^^ t4 >>> 15

/-- State advance of splitmix32: `a = a + 0x9e3779b9 | 0` (uint32 pattern). -/
def nextState (a : ℕ) : ℕ := (a + 0x9e3779b9) % 4294967296

/-- The 32-bit output word produced by one call of the seeded `random()`. -/
def nextOut (a : ℕ) : ℕ := splitmix32Out (nextState a)

/-- The value in `[0,1)` produced by one call of the seeded `random()`:
`out / 4294967296`. -/
def nextVal (a : ℕ) : ℝ := (nextOut a : ℝ) / 4294967296

/-- `getRandomValue(min, max) = random() * (max - min) + min`, returning the
drawn value and the advanced seeded state. -/
def getRandomValue (min max : ℝ) (s : ℕ) : ℝ × ℕ :=
  (nextVal s * (max - min) + min, nextState s)

/-- `getRandomAge(min, max) = random() * (max - min) + min`. -/
def getRandomAge (min max : ℝ) (s : ℕ) : ℝ × ℕ :=
  (nextVal s * (max - min) + min, nextState s)

/-- `getRandomInt(min, max) = Math.floor(random() * (max - min + 1)) + min`. -/
def getRandomInt (min max : ℕ) (s : ℕ) : ℕ × ℕ :=
  (Nat.floor (nextVal s * ((max : ℝ) - (min : ℝ) + 1)) + min, nextState s)

/-- `habitableZone` record: `{ innerBoundary, outerBoundary }`. -/
structure HabitableZone where
  innerBoundary : ℝ
  outerBoundary : ℝ
  deriving DecidableEq

/-- The parent-star record produced by `generateParentStar` (the
`habitableZone` field is attached afterwards by `generateOrbit`). -/
structure Star where
  type : String
  age : ℝ
  size : ℝ
  mass : ℝ
  luminosity : ℝ
  habitableZone : HabitableZone
  deriving DecidableEq

/-- A planet record pushed by `generateSolarSystem` (the source stores the
sampled size under both `size` and `radius`). -/
structure Planet where
  type : String
  orbitRadius : ℝ
  size : ℝ
  radius : ℝ
  atmosphere : String
  moons : ℕ
  axialTilt : ℝ
  deriving DecidableEq

/-- `calculateHabitableZone(luminosity)`. -/
def calculateHabitableZone (luminosity : ℝ) : HabitableZone :=
  ⟨Real.sqrt (luminosity / 1.1), Real.sqrt (luminosity / 0.53)⟩

/-- `isInHabitableZone(orbitRadius, habitableZone)`: boundary-inclusive. -/
def isInHabitableZone (orbitRadius : ℝ) (habitableZone : HabitableZone) : Prop :=
  orbitRadius ≥ habitableZone.innerBoundary ∧ orbitRadius ≤ habitableZone.outerBoundary

instance (orbitRadius : ℝ) (habitableZone : HabitableZone) :
    Decidable (isInHabitableZone orbitRadius habitableZone) :=
  inferInstanceAs (Decidable (_ ∧ _))

/-- `generateStarAge(type)`: class-keyed age ranges; default 0 with no draw. -/
def generateStarAge (type : String) (s : ℕ) : ℝ × ℕ :=
  if type = "M" then getRandomAge 1 5000 s
  else if type = "K" then getRandomAge 1 30 s
  else if type = "G" then getRandomAge 1 10 s
  else if type = "F" then getRandomAge 1 4 s
  else if type = "A" then getRandomAge 0.1 3 s
  else if type = "B" then getRandomAge 0.01 0.5 s
  else if type = "O" then getRandomAge 0.001 0.1 s
  else (0, s)

/-- `generateStarSizeAndMass(type, age)`: two seeded draws per recognized
class (size then mass); default `(0,0)` with no draws. -/
def generateStarSizeAndMass (type : String) (age : ℝ) (s : ℕ) : (ℝ × ℝ) × ℕ :=
  if type = "M" then
    let p1 := getRandomValue 0.1 0.7 s
    let p2 := getRandomValue 0.08 0.45 p1.2
    ((p1.1, p2.1), p2.2)
  else if type = "K" then
    let p1 := getRandomValue 0.7 0.96 s
    let p2 := getRandomValue 0.45 0.8 p1.2
    ((p1.1, p2.1), p2.2)
  else if type = "G" then
    let p1 := getRandomValue 0.96 1.15 s
    let p2 := getRandomValue 0.8 1.04 p1.2
    ((p1.1, p2.1), p2.2)
  else if type = "F" then
    let p1 := getRandomValue 1.15 1.4 s
    let p2 := getRandomValue 1.04 1.4 p1.2
    ((p1.1, p2.1), p2.2)
  else if type = "A" then
    let p1 := getRandomValue 1.4 1.8 s
    let p2 := getRandomValue 1.4 2.1 p1.2
    ((p1.1, p2.1), p2.2)
  else if type = "B" then
    let p1 := getRandomValue 1.8 6.6 s
    let p2 := getRandomValue 2.1 16 p1.2
    ((p1.1, p2.1), p2.2)
  else if type = "O" then
    let p1 := getRandomValue 6.6 20 s
    let p2 := getRandomValue 16 90 p1.2
    ((p1.1, p2.1), p2.2)
  else ((0, 0), s)

/-- `generateStarLuminosity(type, size)`: class-keyed multiplier; default 0. -/
def generateStarLuminosity (type : String) (size : ℝ) : ℝ :=
  if type = "M" then size * 0.08
  else if type = "K" then size * 0.6
  else if type = "G" then size
  else if type = "F" then size * 1.5
  else if type = "A" then size * 5
  else if type = "B" then size * 25
  else if type = "O" then size * 50
  else 0

/-- The ordered star-type table `["M","K","G","F","A","B","O"]`. -/
def starTypes : List String := ["M", "K", "G", "F", "A", "B", "O"]

/-- `generateParentStar()`: draws type, age, size, mass from the seeded
stream and computes luminosity; the `habitableZone` field is not yet set
(modelled as `⟨0,0⟩`, the source leaves it undefined until `generateOrbit`
assigns it). -/
def generateParentStar (s : ℕ) : Star × ℕ :=
  let type := starTypes.getD (Nat.floor (nextVal s * (starTypes.length : ℝ))) ""
  let s1 := nextState s
  let ap := generateStarAge type s1
  let smp := generateStarSizeAndMass type ap.1 ap.2
  let luminosity := generateStarLuminosity type smp.1.1
  (⟨type, ap.1, smp.1.1, smp.1.2, luminosity, ⟨0, 0⟩⟩, smp.2)

/-- `getRandomOrbitRadius(parentStar, planetIndex, totalPlanets)`:
deterministic logarithmic spacing, no randomness consumed. -/
def getRandomOrbitRadius (parentStar : Star) (planetIndex totalPlanets : ℕ) : ℝ :=
  let luminosity := parentStar.luminosity
  let outerHabitable := Real.sqrt (luminosity / 0.53)
  let minOrbit : ℝ := 0.2
  let maxOrbit : ℝ := max 50 (outerHabitable + 20)
  let spacingFactor := (Real.log maxOrbit - Real.log minOrbit) / (totalPlanets : ℝ)
  Real.exp (Real.log minOrbit + spacingFactor * (planetIndex : ℝ))

/-- `determinePlanetType(parentStar, orbitRadius)`: ordered branches on the
orbit radius against the luminosity-derived habitable boundaries; the
habitable-band branch flips the unseeded `Math.random() > 0.5` coin
(one oracle draw), all other branches consume no randomness. -/
def determinePlanetType (parentStar : Star) (orbitRadius : ℝ) (o : ℕ → ℝ) (j : ℕ) :
    String × ℕ :=
  let luminosity := parentStar.luminosity
  let innerHabitable := Real.sqrt (luminosity / 1.1)
  let outerHabitable := Real.sqrt (luminosity / 0.53)
  if orbitRadius < innerHabitable then ("Lava Planet", j)
  else if orbitRadius ≥ innerHabitable ∧ orbitRadius ≤ outerHabitable then
    (if o j > 0.5 then "Terrestrial" else "Ocean World", j + 1)
  else if orbitRadius > outerHabitable ∧ orbitRadius < outerHabitable + 15 then
    ("Gas Giant", j)
  else if orbitRadius ≥ outerHabitable + 5 ∧ orbitRadius < 30 then ("Ice Giant", j)
  else ("Dwarf Planet", j)

/-- `getPlanetSize(planetType)`: one seeded draw per recognized type;
default 1 with no draw. -/
def getPlanetSize (planetType : String) (s : ℕ) : ℝ × ℕ :=
  if planetType = "Lava Planet" then getRandomValue 0.3 1 s
  else if planetType = "Terrestrial" then getRandomValue 0.5 1.5 s
  else if planetType = "Ocean World" then getRandomValue 0.8 2 s
  else if planetType = "Gas Giant" then getRandomValue 6 15 s
  else if planetType = "Ice Giant" then getRandomValue 5 14 s
  else if planetType = "Dwarf Planet" then getRandomValue 0.1 0.3 s
  else (1, s)

/-- The named gas-family pools of `getPlanetAtmosphere`. -/
def atmospheres (key : String) : List String :=
  if key = "trace" then ["trace"]
  else if key = "carbon_dioxide" then ["carbon_dioxide_type_I", "carbon_dioxide_type_II"]
  else if key = "hydrogen_helium" then
    ["hydrogen_helium_type_I", "hydrogen_helium_type_II", "hydrogen_helium_type_III"]
  else if key = "ice" then ["ice_type_I", "ice_type_II"]
  else if key = "nitrogen" then ["nitrogen_type_I", "nitrogen_type_II", "nitrogen_type_III"]
  else if key = "carbon" then ["carbon_type_I"]
  else if key = "ammonia" then ["ammonia_type_I"]
  else []

/-- `randomAtmosphere(types) = types[Math.floor(Math.random() * types.length)]`
(one unseeded oracle draw). -/
def randomAtmosphere (types : List String) (o : ℕ → ℝ) (j : ℕ) : String × ℕ :=
  (types.getD (Nat.floor (o j * (types.length : ℝ))) "undefined", j + 1)

/-- `getPlanetAtmosphere(planetType, orbitRadius, habitableZone)`. -/
def getPlanetAtmosphere (planetType : String) (orbitRadius : ℝ)
    (habitableZone : HabitableZone) (o : ℕ → ℝ) (j : ℕ) : String × ℕ :=
  if planetType = "Terrestrial" then
    if isInHabitableZone orbitRadius habitableZone then
      randomAtmosphere (atmospheres "carbon_dioxide" ++ atmospheres "nitrogen") o j
    else randomAtmosphere (atmospheres "carbon_dioxide") o j
  else if planetType = "Ocean World" then
    randomAtmosphere (atmospheres "carbon" ++ atmospheres "ammonia" ++ atmospheres "nitrogen") o j
  else if planetType = "Gas Giant" then
    randomAtmosphere (atmospheres "hydrogen_helium" ++ [(atmospheres "carbon").getD 0 "undefined"]) o j
  else if planetType = "Ice Giant" then
    randomAtmosphere (atmospheres "ice" ++ [(atmospheres "ammonia").getD 0 "undefined"]) o j
  else if planetType = "Lava Planet" then
    randomAtmosphere (atmospheres "carbon_dioxide") o j
  else if planetType = "Dwarf Planet" then
    randomAtmosphere (atmospheres "trace" ++ atmospheres "carbon_dioxide") o j
  else ("unknown", j)

/-- `getPlanetMoons(planetType)`: one seeded integer draw per recognized
type; default 0 with no draw. -/
def getPlanetMoons (planetType : String) (s : ℕ) : ℕ × ℕ :=
  if planetType = "Terrestrial" then getRandomInt 0 3 s
  else if planetType = "Ocean World" then getRandomInt 0 2 s
  else if planetType = "Gas Giant" then getRandomInt 1 80 s
  else if planetType = "Ice Giant" then getRandomInt 1 50 s
  else if planetType = "Lava Planet" then getRandomInt 0 2 s
  else if planetType = "Dwarf Planet" then getRandomInt 0 5 s
  else (0, s)

/-- The `tiltRanges` object lookup of `getAxialTilt`, including the
`|| tiltRanges['Terrestrial']` fallback.  Note the table keys
(`'Dwarf'`, `'Ocean'`, `'Lava'`) do not match the planet-type strings
produced by `determinePlanetType` (`"Dwarf Planet"`, `"Ocean World"`,
`"Lava Planet"`), so those entries are only reachable via the fallback
behaviour of the full-name keys. -/
def tiltRange (planetType : String) : ℝ × ℝ :=
  if planetType = "Dwarf" then (0, 30)
  else if planetType = "Terrestrial" then (0, 25)
  else if planetType = "Ocean" then (10, 30)
  else if planetType = "Lava" then (0, 40)
  else if planetType = "Gas Giant" then (15, 90)
  else if planetType = "Ice Giant" then (10, 90)
  else (0, 25)

/-- `getAxialTilt(planetType) = Math.random() * (range.max - range.min) + range.min`
(one unseeded oracle draw). -/
def getAxialTilt (planetType : String) (o : ℕ → ℝ) (j : ℕ) : ℝ × ℕ :=
  let range := tiltRange planetType
  (o j * (range.2 - range.1) + range.1, j + 1)

/-- One iteration of the planet loop of `generateSolarSystem`: orbit radius,
type, size, atmosphere, moons, axial tilt, in source order.  Returns the
planet together with the advanced seeded state and oracle index. -/
def genOnePlanet (parentStar : Star) (i totalPlanets : ℕ) (s : ℕ) (o : ℕ → ℝ) (j : ℕ) :
    Planet × ℕ × ℕ :=
  let orbitRadius := getRandomOrbitRadius parentStar i totalPlanets
  let tp := determinePlanetType parentStar orbitRadius o j
  let sz := getPlanetSize tp.1 s
  let at_ := getPlanetAtmosphere tp.1 orbitRadius parentStar.habitableZone o tp.2
  let mo := getPlanetMoons tp.1 sz.2
  let ti := getAxialTilt tp.1 o at_.2
  (⟨tp.1, orbitRadius, sz.1, sz.1, at_.1, mo.1, ti.1⟩, mo.2, ti.2)

/-- The planet loop of `generateSolarSystem`: `k` iterations remain, the
current slot index is `i`; threads the seeded state, oracle index and the
`habitableZonePlanetAdded` flag. -/
def generateSolarSystemAux (parentStar : Star) (o : ℕ → ℝ) (totalPlanets : ℕ) :
    ℕ → ℕ → ℕ → ℕ → Bool → List Planet × ℕ × ℕ × Bool
  | 0, _, s, j, flag => ([], s, j, flag)
  | k + 1, i, s, j, flag =>
    let psj := genOnePlanet parentStar i totalPlanets s o j
    let flag1 :=
      if isInHabitableZone psj.1.orbitRadius parentStar.habitableZone then true else flag
    let rest := generateSolarSystemAux parentStar o totalPlanets k (i + 1) psj.2.1 psj.2.2 flag1
    (psj.1 :: rest.1, rest.2)

/-- In-place update `planets[idx].orbitRadius = mid` (no-op when `idx` is
out of range, which cannot happen in a generated system). -/
def setOrbitRadiusAt (mid : ℝ) : List Planet → ℕ → List Planet
  | [], _ => []
  | p :: ps, 0 => { p with orbitRadius := mid } :: ps
  | p :: ps, k + 1 => p :: setOrbitRadiusAt mid ps k

/-- `adjustForHabitableZonePlanet(planets, habitableZone)`: if no planet
lies in the zone, one seeded draw picks an index and that planet's
`orbitRadius` is overwritten with the zone midpoint. -/
def adjustForHabitableZonePlanet (planets : List Planet) (habitableZone : HabitableZone)
    (s : ℕ) : List Planet × ℕ :=
  if ∃ p ∈ planets, isInHabitableZone p.orbitRadius habitableZone then (planets, s)
  else
    let idx := Nat.floor (nextVal s * (planets.length : ℝ))
    (setOrbitRadiusAt ((habitableZone.innerBoundary + habitableZone.outerBoundary) / 2)
      planets idx, nextState s)

/-- Sort order used by `solarSystemPlanets.sort((a, b) => a.orbitRadius - b.orbitRadius)`. -/
def planetLE (a b : Planet) : Prop := a.orbitRadius ≤ b.orbitRadius

instance : DecidableRel planetLE :=
  fun a b => inferInstanceAs (Decidable (a.orbitRadius ≤ b.orbitRadius))

instance : IsTotal Planet planetLE := ⟨fun a b => le_total a.orbitRadius b.orbitRadius⟩

instance : IsTrans Planet planetLE := ⟨fun _ _ _ h1 h2 => le_trans h1 h2⟩

/-- `generateSolarSystem(parentStar)`: planet count in `[3,18]`, the planet
loop, the habitability-guarantee pass, and the final sort by orbit radius
(stable, modelled by insertion sort).  Returns the sorted list with the
final seeded state and oracle index. -/
def generateSolarSystem (parentStar : Star) (s : ℕ) (o : ℕ → ℝ) (j : ℕ) :
    List Planet × ℕ × ℕ :=
  let np := getRandomInt 3 18 s
  let res := generateSolarSystemAux parentStar o np.1 np.1 0 np.2 j false
  let adj :=
    if res.2.2.2 then (res.1, res.2.1)
    else adjustForHabitableZonePlanet res.1 parentStar.habitableZone res.2.1
  (List.insertionSort planetLE adj.1, adj.2, res.2.2.1)

/-- The call expression
`determinePlanetType(parentStar, orbitRadius, habitableZonePlanetAdded)`
used inside `generateSolarSystem`: the function declares only two
parameters, so JavaScript discards the third argument. -/
def determinePlanetTypeCallsite (parentStar : Star) (orbitRadius : ℝ)
    (hzAdded : Bool) (o : ℕ → ℝ) (j : ℕ) : String × ℕ :=
  determinePlanetType parentStar orbitRadius o j

/-- A concrete star whose luminosity is `1.1`, so that the inner habitable
boundary is exactly `1` (the other fields are irrelevant to the
classifier). -/
def starL11 : Star := ⟨"G", 1, 1, 1, 1.1, ⟨0, 0⟩⟩

/-- A concrete habitable zone `[1, 2]` used to exercise the relocation
pass on inputs where no planet is in the zone. -/
def demoZone : HabitableZone := ⟨1, 2⟩

/-- Two concrete planets with orbit radii 5 and 9, both outside `demoZone`. -/
def demoPlanets : List Planet :=
  [⟨"Gas Giant", 5, 7, 7, "hydrogen_helium_type_I", 10, 20⟩,
   ⟨"Ice Giant", 9, 6, 6, "ice_type_I", 4, 30⟩]

/-- The record returned by `generateOrbit`. -/
structure OrbitResult where
  parentStar : Star
  solarSystem : List Planet
  habitableZone : HabitableZone
  deriving DecidableEq

/-- `generateOrbit(seed)` with a (non-null) seed: reseeds the stream, builds
the parent star, attaches the habitable zone computed from the
recomputed luminosity, and generates the solar system.  The ambient
`Math.random()` is the oracle `o` starting at index `j`. -/
def generateOrbit (seed : ℕ) (o : ℕ → ℝ) (j : ℕ) : OrbitResult :=
  let ps := generateParentStar seed
  let luminosity := generateStarLuminosity ps.1.type ps.1.size
  let parentStar : Star := { ps.1 with habitableZone := calculateHabitableZone luminosity }
  let sys := generateSolarSystem parentStar ps.2 o j
  ⟨parentStar, sys.1, parentStar.habitableZone⟩

end

/-! ### Basic bounds on the seeded random stream -/

theorem xor32_lt {x y : ℕ} (hx : x < 4294967296) (hy : y < 4294967296) :
    x ^^^ y < 4294967296 := by
  have h32 : (4294967296 : ℕ) = 2 ^ 32 := by norm_num
  rw [h32] at hx hy ⊢
  exact Nat.bitwise_lt hx hy

theorem shiftRight_le_self (x k : ℕ) : x >>> k ≤ x := by
  rw [Nat.shiftRight_eq_div_pow]
  exact Nat.div_le_self x (2 ^ k)

theorem imul32_lt (x y : ℕ) : imul32 x y < 4294967296 :=
  Nat.mod_lt _ (by norm_num)

theorem splitmix32Out_lt {a : ℕ} (ha : a < 4294967296) :
    splitmix32Out a < 4294967296 := by
  unfold splitmix32Out
  have h1 : a ^^^ a >>> 16 < 4294967296 :=
    xor32_lt ha (lt_of_le_of_lt (shiftRight_le_self a 16) ha)
  have h2 := imul32_lt (a ^^^ a >>> 16) 0x21f0aaad
  have h3 : imul32 (a ^^^ a >>> 16) 0x21f0aaad ^^^ imul32 (a ^^^ a >>> 16) 0x21f0aaad >>> 15
      < 4294967296 :=
    xor32_lt h2 (lt_of_le_of_lt (shiftRight_le_self _ 15) h2)
  have h4 := imul32_lt (imul32 (a ^^^ a >>> 16) 0x21f0aaad ^^^
    imul32 (a ^^^ a >>> 16) 0x21f0aaad >>> 15) 0x735a2d97
  exact xor32_lt h4 (lt_of_le_of_lt (shiftRight_le_self _ 15) h4)

theorem nextState_lt (a : ℕ) : nextState a < 4294967296 :=
  Nat.mod_lt _ (by norm_num)

theorem nextOut_lt (a : ℕ) : nextOut a < 4294967296 :=
  splitmix32Out_lt (nextState_lt a)

theorem nextVal_nonneg (a : ℕ) : 0 ≤ nextVal a := by
  unfold nextVal
  positivity

theorem nextVal_lt_one (a : ℕ) : nextVal a < 1 := by
  unfold nextVal
  rw [div_lt_one (by norm_num)]
  exact_mod_cast nextOut_lt a

theorem getRandomInt_ge (min max s : ℕ) : min ≤ (getRandomInt min max s).1 :=
  Nat.le_add_left min _

theorem getRandomInt_le {min max : ℕ} (h : min ≤ max) (s : ℕ) :
    (getRandomInt min max s).1 ≤ max := by
  unfold getRandomInt
  have hmono : (min : ℝ) ≤ (max : ℝ) := by exact_mod_cast h
  have hpos : (0 : ℝ) < (max : ℝ) - (min : ℝ) + 1 := by linarith
  have hfl : Nat.floor (nextVal s * ((max : ℝ) - (min : ℝ) + 1)) < max - min + 1 := by
    rw [Nat.floor_lt (mul_nonneg (nextVal_nonneg s) (le_of_lt hpos))]
    have hlt : nextVal s * ((max : ℝ) - (min : ℝ) + 1) < 1 * ((max : ℝ) - (min : ℝ) + 1) :=
      mul_lt_mul_of_pos_right (nextVal_lt_one s) hpos
    have hcast : ((max - min + 1 : ℕ) : ℝ) = (max : ℝ) - (min : ℝ) + 1 := by
      push_cast [Nat.cast_sub h]
      ring
    rw [hcast]
    linarith
  omega

theorem getRandomValue_ge {min max : ℝ} (h : min ≤ max) (s : ℕ) :
    min ≤ (getRandomValue min max s).1 := by
  unfold getRandomValue
  dsimp only
  have h0 := nextVal_nonneg s
  nlinarith

theorem getRandomValue_le {min max : ℝ} (h : min ≤ max) (s : ℕ) :
    (getRandomValue min max s).1 ≤ max := by
  unfold getRandomValue
  dsimp only
  have h0 := nextVal_nonneg s
  have h1 := nextVal_lt_one s
  nlinarith

/-! ### The generated star always has positive luminosity -/

theorem generateParentStar_luminosity_pos (s : ℕ) :
    0 < (generateParentStar s).1.luminosity := by
  unfold generateParentStar
  dsimp only
  have hu0 := nextVal_nonneg s
  have hu1 := nextVal_lt_one s
  have h7 : Nat.floor (nextVal s * ((starTypes.length : ℕ) : ℝ)) < 7 := by
    rw [Nat.floor_lt (by simp [starTypes]; positivity)]
    simp only [starTypes, List.length_cons, List.length_nil]
    push_cast
    nlinarith
  set m := Nat.floor (nextVal s * ((starTypes.length : ℕ) : ℝ)) with hm
  clear_value m
  have hval1 := nextVal_nonneg (nextState (nextState s))
  interval_cases m <;>
    simp [starTypes, generateStarSizeAndMass, generateStarLuminosity, getRandomValue,
      generateStarAge, getRandomAge] <;>
    nlinarith [hval1]

/-! ### Habitable-zone boundary helpers -/

theorem calcZone_inner_pos {L : ℝ} (hL : 0 < L) :
    0 < (calculateHabitableZone L).innerBoundary := by
  show 0 < Real.sqrt (L / 1.1)
  rw [Real.sqrt_pos]
  positivity

theorem calcZone_inner_lt_outer {L : ℝ} (hL : 0 < L) :
    (calculateHabitableZone L).innerBoundary < (calculateHabitableZone L).outerBoundary := by
  show Real.sqrt (L / 1.1) < Real.sqrt (L / 0.53)
  apply Real.sqrt_lt_sqrt (by positivity)
  rw [div_lt_div_iff₀ (by norm_num) (by norm_num)]
  nlinarith

/-! ### C5: the habitable-zone calculator -/

/-- Claim C5: for every luminosity `L > 0` the habitable-zone calculator
returns exactly `{ inner := sqrt (L / 1.1), outer := sqrt (L / 0.53) }`
(it is a pure function of `L`, with no stream state in its type), and the
result satisfies `0 < inner < outer`. -/
theorem claim_C5 (L : ℝ) (hL : 0 < L) :
    calculateHabitableZone L = ⟨Real.sqrt (L / 1.1), Real.sqrt (L / 0.53)⟩ ∧
    0 < (calculateHabitableZone L).innerBoundary ∧
    (calculateHabitableZone L).innerBoundary < (calculateHabitableZone L).outerBoundary := by
  refine ⟨rfl, ?_, ?_⟩
  · show 0 < Real.sqrt (L / 1.1)
    rw [Real.sqrt_pos]
    positivity
  · show Real.sqrt (L / 1.1) < Real.sqrt (L / 0.53)
    apply Real.sqrt_lt_sqrt (by positivity)
    rw [div_lt_div_iff₀ (by norm_num) (by norm_num)]
    nlinarith

/-- Witness for C5 at the concrete luminosity `L = 1`. -/
theorem claim_C5_witness :
    (0 : ℝ) < 1 ∧
    (calculateHabitableZone 1 = ⟨Real.sqrt (1 / 1.1), Real.sqrt (1 / 0.53)⟩ ∧
      0 < (calculateHabitableZone 1).innerBoundary ∧
      (calculateHabitableZone 1).innerBoundary < (calculateHabitableZone 1).outerBoundary) :=
  ⟨by norm_num, claim_C5 1 (by norm_num)⟩

/-! ### C7: the orbit layout formula -/

/-- Claim C7: `getRandomOrbitRadius` consumes no randomness (its type takes
no stream state) and equals
`exp (ln 0.2 + i * (ln maxOrbit - ln 0.2) / N)` with
`maxOrbit = max 50 (outerHabitable + 20)`; every radius is strictly
positive, and for `N ≥ 1` the radii are strictly increasing in the slot
index. -/
theorem claim_C7 (star : Star) (i jdx N : ℕ) :
    getRandomOrbitRadius star i N =
      Real.exp (Real.log 0.2 + (i : ℝ) *
        ((Real.log (max 50 (Real.sqrt (star.luminosity / 0.53) + 20)) - Real.log 0.2) /
          (N : ℝ))) ∧
    0 < getRandomOrbitRadius star i N ∧
    (1 ≤ N → i < jdx → getRandomOrbitRadius star i N < getRandomOrbitRadius star jdx N) := by
  refine ⟨?_, Real.exp_pos _, ?_⟩
  · unfold getRandomOrbitRadius
    ring_nf
  · intro hN hij
    unfold getRandomOrbitRadius
    apply Real.exp_lt_exp_of_lt
    have hspacing : 0 <
        (Real.log (max 50 (Real.sqrt (star.luminosity / 0.53) + 20)) - Real.log 0.2) /
          (N : ℝ) := by
      apply div_pos
      · have h50 : Real.log 0.2 < Real.log 50 := by
          apply Real.log_lt_log (by norm_num) (by norm_num)
        have hmax : Real.log 50 ≤
            Real.log (max 50 (Real.sqrt (star.luminosity / 0.53) + 20)) := by
          apply Real.log_le_log (by norm_num) (le_max_left _ _)
        linarith
      · exact_mod_cast Nat.lt_of_lt_of_le Nat.zero_lt_one hN
    have hij' : (i : ℝ) < (jdx : ℝ) := by exact_mod_cast hij
    have := mul_lt_mul_of_pos_left hij' hspacing
    linarith

/-- Witness for C7 at a concrete star (`luminosity = 1`), slots `0 < 1` of 3. -/
theorem claim_C7_witness :
    (1 : ℕ) ≤ 3 ∧ (0 : ℕ) < 1 ∧
    0 < getRandomOrbitRadius (⟨"G", 1, 1, 1, 1, ⟨0, 0⟩⟩ : Star) 0 3 ∧
    getRandomOrbitRadius (⟨"G", 1, 1, 1, 1, ⟨0, 0⟩⟩ : Star) 0 3 <
      getRandomOrbitRadius (⟨"G", 1, 1, 1, 1, ⟨0, 0⟩⟩ : Star) 1 3 :=
  ⟨by norm_num, by norm_num, (claim_C7 ⟨"G", 1, 1, 1, 1, ⟨0, 0⟩⟩ 0 1 3).2.1,
    (claim_C7 ⟨"G", 1, 1, 1, 1, ⟨0, 0⟩⟩ 0 1 3).2.2 (by norm_num) (by norm_num)⟩

/-! ### Structural lemmas about the planet loop -/

theorem determinePlanetType_mem (star : Star) (r : ℝ) (o : ℕ → ℝ) (j : ℕ) :
    (determinePlanetType star r o j).1 = "Lava Planet" ∨
    (determinePlanetType star r o j).1 = "Terrestrial" ∨
    (determinePlanetType star r o j).1 = "Ocean World" ∨
    (determinePlanetType star r o j).1 = "Gas Giant" ∨
    (determinePlanetType star r o j).1 = "Ice Giant" ∨
    (determinePlanetType star r o j).1 = "Dwarf Planet" := by
  unfold determinePlanetType
  dsimp only
  split_ifs <;> simp

theorem getPlanetSize_state {t : String}
    (h : t = "Lava Planet" ∨ t = "Terrestrial" ∨ t = "Ocean World" ∨
      t = "Gas Giant" ∨ t = "Ice Giant" ∨ t = "Dwarf Planet") (s : ℕ) :
    (getPlanetSize t s).2 = nextState s := by
  rcases h with h | h | h | h | h | h <;> subst h <;>
    simp [getPlanetSize, getRandomValue]

theorem getPlanetMoons_state {t : String}
    (h : t = "Lava Planet" ∨ t = "Terrestrial" ∨ t = "Ocean World" ∨
      t = "Gas Giant" ∨ t = "Ice Giant" ∨ t = "Dwarf Planet") (s : ℕ) :
    (getPlanetMoons t s).2 = nextState s := by
  rcases h with h | h | h | h | h | h <;> subst h <;>
    simp [getPlanetMoons, getRandomInt]

theorem genOnePlanet_radius (star : Star) (i N s : ℕ) (o : ℕ → ℝ) (j : ℕ) :
    (genOnePlanet star i N s o j).1.orbitRadius = getRandomOrbitRadius star i N := rfl

theorem genOnePlanet_state (star : Star) (i N s : ℕ) (o : ℕ → ℝ) (j : ℕ) :
    (genOnePlanet star i N s o j).2.1 = nextState (nextState s) := by
  unfold genOnePlanet
  dsimp only
  rw [getPlanetMoons_state (determinePlanetType_mem star (getRandomOrbitRadius star i N) o j),
    getPlanetSize_state (determinePlanetType_mem star (getRandomOrbitRadius star i N) o j)]

theorem aux_length (star : Star) (o : ℕ → ℝ) (N : ℕ) :
    ∀ k i s j flag, (generateSolarSystemAux star o N k i s j flag).1.length = k := by
  intro k
  induction k with
  | zero => intro i s j flag; rfl
  | succ k ih =>
    intro i s j flag
    simp only [generateSolarSystemAux, List.length_cons]
    rw [ih]

/-- The seeded stream, the orbit radii and the habitable-zone flag produced
by the planet loop do not depend on the unseeded `Math.random()` oracle:
every iteration consumes exactly two seeded draws (size and moons) and
computes the radius and the flag from oracle-free data. -/
theorem aux_oracle_irrel (star : Star) (N : ℕ) (o1 o2 : ℕ → ℝ) :
    ∀ k i s j1 j2 flag,
      (generateSolarSystemAux star o1 N k i s j1 flag).1.map Planet.orbitRadius =
        (generateSolarSystemAux star o2 N k i s j2 flag).1.map Planet.orbitRadius ∧
      (generateSolarSystemAux star o1 N k i s j1 flag).2.1 =
        (generateSolarSystemAux star o2 N k i s j2 flag).2.1 ∧
      (generateSolarSystemAux star o1 N k i s j1 flag).2.2.2 =
        (generateSolarSystemAux star o2 N k i s j2 flag).2.2.2 := by
  intro k
  induction k with
  | zero => intro i s j1 j2 flag; exact ⟨rfl, rfl, rfl⟩
  | succ k ih =>
    intro i s j1 j2 flag
    simp only [generateSolarSystemAux, List.map_cons]
    rw [genOnePlanet_radius, genOnePlanet_radius, genOnePlanet_state, genOnePlanet_state]
    obtain ⟨ihmap, ihstate, ihflag⟩ :=
      ih (i + 1) (nextState (nextState s)) (genOnePlanet star i N s o1 j1).2.2
        (genOnePlanet star i N s o2 j2).2.2
        (if isInHabitableZone (getRandomOrbitRadius star i N) star.habitableZone then true
          else flag)
    exact ⟨by rw [ihmap], ihstate, ihflag⟩

/-- If the loop reports the habitable-zone flag set, then either it was
already set on entry or some generated planet lies in the zone. -/
theorem aux_flag_sound (star : Star) (o : ℕ → ℝ) (N : ℕ) :
    ∀ k i s j flag,
      (generateSolarSystemAux star o N k i s j flag).2.2.2 = true →
      flag = true ∨ ∃ p ∈ (generateSolarSystemAux star o N k i s j flag).1,
        isInHabitableZone p.orbitRadius star.habitableZone := by
  intro k
  induction k with
  | zero => intro i s j flag h; exact Or.inl h
  | succ k ih =>
    intro i s j flag h
    simp only [generateSolarSystemAux] at h ⊢
    by_cases hz :
        isInHabitableZone (genOnePlanet star i N s o j).1.orbitRadius star.habitableZone
    · exact Or.inr ⟨(genOnePlanet star i N s o j).1, List.mem_cons_self _ _, hz⟩
    · rw [if_neg hz] at h ⊢
      rcases ih (i + 1) (genOnePlanet star i N s o j).2.1 (genOnePlanet star i N s o j).2.2
          flag h with hfl | ⟨p, hp, hpz⟩
      · exact Or.inl hfl
      · exact Or.inr ⟨p, List.mem_cons_of_mem _ hp, hpz⟩

/-! ### Lemmas about the relocation pass -/

theorem setOrbitRadiusAt_length (mid : ℝ) :
    ∀ (l : List Planet) (k : ℕ), (setOrbitRadiusAt mid l k).length = l.length := by
  intro l
  induction l with
  | nil => intro k; rfl
  | cons p ps ih =>
    intro k
    cases k with
    | zero => rfl
    | succ k => simp only [setOrbitRadiusAt, List.length_cons, ih]

theorem setOrbitRadiusAt_mem (mid : ℝ) :
    ∀ (l : List Planet) (k : ℕ), k < l.length →
      ∃ p ∈ setOrbitRadiusAt mid l k, p.orbitRadius = mid := by
  intro l
  induction l with
  | nil => intro k hk; simp at hk
  | cons p ps ih =>
    intro k hk
    cases k with
    | zero => exact ⟨{ p with orbitRadius := mid }, List.mem_cons_self _ _, rfl⟩
    | succ k =>
      obtain ⟨q, hq, hqr⟩ := ih k (by simpa using hk)
      exact ⟨q, List.mem_cons_of_mem _ hq, hqr⟩

theorem setOrbitRadiusAt_map_radius (mid : ℝ) :
    ∀ (l : List Planet) (k : ℕ),
      (setOrbitRadiusAt mid l k).map Planet.orbitRadius =
        (l.map Planet.orbitRadius).set k mid := by
  intro l
  induction l with
  | nil => intro k; rfl
  | cons p ps ih =>
    intro k
    cases k with
    | zero => rfl
    | succ k => simp only [setOrbitRadiusAt, List.map_cons, List.set_cons_succ, ih]

theorem setOrbitRadiusAt_map_tilt (mid : ℝ) :
    ∀ (l : List Planet) (k : ℕ),
      (setOrbitRadiusAt mid l k).map Planet.axialTilt = l.map Planet.axialTilt := by
  intro l
  induction l with
  | nil => intro k; rfl
  | cons p ps ih =>
    intro k
    cases k with
    | zero => rfl
    | succ k => simp only [setOrbitRadiusAt, List.map_cons, ih]

theorem adjust_length (planets : List Planet) (zone : HabitableZone) (s : ℕ) :
    (adjustForHabitableZonePlanet planets zone s).1.length = planets.length := by
  unfold adjustForHabitableZonePlanet
  split_ifs with h
  · rfl
  · exact setOrbitRadiusAt_length _ planets _

theorem adjust_map_tilt (planets : List Planet) (zone : HabitableZone) (s : ℕ) :
    (adjustForHabitableZonePlanet planets zone s).1.map Planet.axialTilt =
      planets.map Planet.axialTilt := by
  unfold adjustForHabitableZonePlanet
  split_ifs with h
  · rfl
  · exact setOrbitRadiusAt_map_tilt _ planets _

/-! ### C3: the ordered-branch classification policy -/

/-- Claim C3: with habitable boundaries `inner < outer` derived from the
star's luminosity, `determinePlanetType` follows the ordered-branch
policy: `r < inner` gives Lava Planet; `inner ≤ r ≤ outer` gives
Terrestrial or Ocean World; `outer < r < outer + 15` gives Gas Giant;
`outer + 5 ≤ r < 30` with the Gas-Giant branch not matching gives
Ice Giant; when no branch matches, Dwarf Planet; and in the overlap
region `outer + 5 ≤ r < outer + 15` the first matching branch wins, so
the result is Gas Giant. -/
theorem claim_C3 (star : Star) (r : ℝ) (o : ℕ → ℝ) (j : ℕ)
    (hio : Real.sqrt (star.luminosity / 1.1) < Real.sqrt (star.luminosity / 0.53)) :
    (r < Real.sqrt (star.luminosity / 1.1) →
      (determinePlanetType star r o j).1 = "Lava Planet") ∧
    (Real.sqrt (star.luminosity / 1.1) ≤ r → r ≤ Real.sqrt (star.luminosity / 0.53) →
      (determinePlanetType star r o j).1 = "Terrestrial" ∨
        (determinePlanetType star r o j).1 = "Ocean World") ∧
    (Real.sqrt (star.luminosity / 0.53) < r → r < Real.sqrt (star.luminosity / 0.53) + 15 →
      (determinePlanetType star r o j).1 = "Gas Giant") ∧
    (Real.sqrt (star.luminosity / 0.53) + 5 ≤ r → r < 30 →
      ¬ (Real.sqrt (star.luminosity / 0.53) < r ∧
          r < Real.sqrt (star.luminosity / 0.53) + 15) →
      (determinePlanetType star r o j).1 = "Ice Giant") ∧
    (¬ r < Real.sqrt (star.luminosity / 1.1) →
      ¬ (Real.sqrt (star.luminosity / 1.1) ≤ r ∧ r ≤ Real.sqrt (star.luminosity / 0.53)) →
      ¬ (Real.sqrt (star.luminosity / 0.53) < r ∧
          r < Real.sqrt (star.luminosity / 0.53) + 15) →
      ¬ (Real.sqrt (star.luminosity / 0.53) + 5 ≤ r ∧ r < 30) →
      (determinePlanetType star r o j).1 = "Dwarf Planet") ∧
    (Real.sqrt (star.luminosity / 0.53) + 5 ≤ r → r < Real.sqrt (star.luminosity / 0.53) + 15 →
      (determinePlanetType star r o j).1 = "Gas Giant") := by
  unfold determinePlanetType
  refine ⟨?_, ?_, ?_, ?_, ?_, ?_⟩
  · intro h1
    rw [if_pos h1]
  · intro h1 h2
    rw [if_neg (not_lt.mpr h1), if_pos ⟨h1, h2⟩]
    by_cases hc : o j > 0.5
    · left; rw [if_pos hc]
    · right; rw [if_neg hc]
  · intro h1 h2
    rw [if_neg (not_lt.mpr (le_of_lt (lt_trans hio h1))),
      if_neg (fun hand => absurd hand.2 (not_le.mpr h1)), if_pos ⟨h1, h2⟩]
  · intro h1 h2 hgas
    have houter : Real.sqrt (star.luminosity / 0.53) < r := by
      have h5 : (0 : ℝ) < 5 := by norm_num
      linarith
    rw [if_neg (not_lt.mpr (le_of_lt (lt_trans hio houter))),
      if_neg (fun hand => absurd hand.2 (not_le.mpr houter)), if_neg hgas, if_pos ⟨h1, h2⟩]
  · intro h1 h2 h3 h4
    rw [if_neg h1, if_neg h2, if_neg h3, if_neg h4]
  · intro h1 h2
    have houter : Real.sqrt (star.luminosity / 0.53) < r := by linarith
    rw [if_neg (not_lt.mpr (le_of_lt (lt_trans hio houter))),
      if_neg (fun hand => absurd hand.2 (not_le.mpr houter)), if_pos ⟨houter, h2⟩]

theorem starL11_inner : Real.sqrt (starL11.luminosity / 1.1) = 1 := by
  show Real.sqrt ((1.1 : ℝ) / 1.1) = 1
  rw [show (1.1 : ℝ) / 1.1 = 1 by norm_num, Real.sqrt_one]

theorem starL11_outer_lt_two : Real.sqrt (starL11.luminosity / 0.53) < 2 := by
  show Real.sqrt ((1.1 : ℝ) / 0.53) < 2
  rw [Real.sqrt_lt' (by norm_num)]
  norm_num

theorem starL11_one_le_outer : 1 ≤ Real.sqrt (starL11.luminosity / 0.53) := by
  show (1 : ℝ) ≤ Real.sqrt ((1.1 : ℝ) / 0.53)
  rw [Real.le_sqrt' (by norm_num)]
  norm_num

theorem starL11_io :
    Real.sqrt (starL11.luminosity / 1.1) < Real.sqrt (starL11.luminosity / 0.53) := by
  show Real.sqrt ((1.1 : ℝ) / 1.1) < Real.sqrt ((1.1 : ℝ) / 0.53)
  apply Real.sqrt_lt_sqrt (by norm_num)
  norm_num

/-- Witness for C3: each branch of the policy exercised at the star with
luminosity `1.1` (inner = 1, outer = sqrt (1.1 / 0.53) < 2) with concrete
radii 0.5, 1, 2, 17, 40 and overlap radius 7. -/
theorem claim_C3_witness :
    (determinePlanetType starL11 0.5 (fun _ => 1) 0).1 = "Lava Planet" ∧
    ((determinePlanetType starL11 1 (fun _ => 1) 0).1 = "Terrestrial" ∨
      (determinePlanetType starL11 1 (fun _ => 1) 0).1 = "Ocean World") ∧
    (determinePlanetType starL11 2 (fun _ => 1) 0).1 = "Gas Giant" ∧
    (determinePlanetType starL11 17 (fun _ => 1) 0).1 = "Ice Giant" ∧
    (determinePlanetType starL11 40 (fun _ => 1) 0).1 = "Dwarf Planet" ∧
    (determinePlanetType starL11 7 (fun _ => 1) 0).1 = "Gas Giant" := by
  have hin := starL11_inner
  have hout2 := starL11_outer_lt_two
  have hout1 := starL11_one_le_outer
  have hio := starL11_io
  have houtnn : 0 ≤ Real.sqrt (starL11.luminosity / 0.53) := Real.sqrt_nonneg _
  refine ⟨?_, ?_, ?_, ?_, ?_, ?_⟩
  · exact (claim_C3 starL11 0.5 (fun _ => 1) 0 hio).1 (by rw [hin]; norm_num)
  · exact (claim_C3 starL11 1 (fun _ => 1) 0 hio).2.1 (by rw [hin]) hout1
  · exact (claim_C3 starL11 2 (fun _ => 1) 0 hio).2.2.1 (by linarith) (by linarith)
  · exact (claim_C3 starL11 17 (fun _ => 1) 0 hio).2.2.2.1 (by linarith) (by norm_num)
      (by rintro ⟨-, habs⟩; linarith)
  · exact (claim_C3 starL11 40 (fun _ => 1) 0 hio).2.2.2.2.1
      (by rw [hin]; norm_num)
      (by rintro ⟨-, habs⟩; linarith)
      (by rintro ⟨-, habs⟩; linarith)
      (by rintro ⟨-, habs⟩; linarith)
  · exact (claim_C3 starL11 7 (fun _ => 1) 0 hio).2.2.2.2.2 (by linarith) (by linarith)

/-! ### C4: purity of the classifier (corrected) -/

/-- Counterexample to C4 as stated: two calls of `determinePlanetType` with
the same star (hence the same habitable boundaries) and the same orbit
radius return different types, because the habitable-band branch flips
the unseeded `Math.random() > 0.5` coin. -/
theorem claim_C4_counterexample :
    (determinePlanetType starL11 1 (fun _ => 1) 0).1 = "Terrestrial" ∧
    (determinePlanetType starL11 1 (fun _ => 0) 0).1 = "Ocean World" ∧
    (determinePlanetType starL11 1 (fun _ => 1) 0).1 ≠
      (determinePlanetType starL11 1 (fun _ => 0) 0).1 := by
  have hin := starL11_inner
  have hout1 := starL11_one_le_outer
  have hT : (determinePlanetType starL11 1 (fun _ => 1) 0).1 = "Terrestrial" := by
    unfold determinePlanetType
    rw [if_neg (by rw [hin]; exact lt_irrefl 1), if_pos ⟨hin.le, hout1⟩,
      if_pos (by norm_num)]
  have hO : (determinePlanetType starL11 1 (fun _ => 0) 0).1 = "Ocean World" := by
    unfold determinePlanetType
    rw [if_neg (by rw [hin]; exact lt_irrefl 1), if_pos ⟨hin.le, hout1⟩,
      if_neg (by norm_num)]
  refine ⟨hT, hO, ?_⟩
  rw [hT, hO]
  decide

/-- Two classifier calls with equal luminosity and coin draws on the same
side of 0.5 return the same type. -/
theorem determinePlanetType_coin_eq (star1 star2 : Star) (r : ℝ) (o1 o2 : ℕ → ℝ)
    (j1 j2 : ℕ) (hlum : star1.luminosity = star2.luminosity)
    (hcoin : o1 j1 > 0.5 ↔ o2 j2 > 0.5) :
    (determinePlanetType star1 r o1 j1).1 = (determinePlanetType star2 r o2 j2).1 := by
  unfold determinePlanetType
  rw [hlum]
  dsimp only
  by_cases h1 : r < Real.sqrt (star2.luminosity / 1.1)
  · rw [if_pos h1, if_pos h1]
  · rw [if_neg h1, if_neg h1]
    by_cases h2 : r ≥ Real.sqrt (star2.luminosity / 1.1) ∧
        r ≤ Real.sqrt (star2.luminosity / 0.53)
    · rw [if_pos h2, if_pos h2]
      by_cases hc : o1 j1 > 0.5
      · rw [if_pos hc, if_pos (hcoin.mp hc)]
      · rw [if_neg hc, if_neg (fun hx => hc (hcoin.mpr hx))]
    · rw [if_neg h2, if_neg h2]
      by_cases h3 : r > Real.sqrt (star2.luminosity / 0.53) ∧
          r < Real.sqrt (star2.luminosity / 0.53) + 15
      · rw [if_pos h3, if_pos h3]
      · rw [if_neg h3, if_neg h3]
        by_cases h4 : r ≥ Real.sqrt (star2.luminosity / 0.53) + 5 ∧ r < 30
        · rw [if_pos h4, if_pos h4]
        · rw [if_neg h4, if_neg h4]

/-- Claim C4 amended: `determinePlanetType` is a deterministic function of
the star's luminosity, the orbit radius, and the outcome of the unseeded
coin comparison `Math.random() > 0.5`: two calls whose coin draws fall on
the same side of 0.5 return the same type (in particular, outside the
habitable band the type does not depend on the coin at all). -/
theorem claim_C4_amended (star1 star2 : Star) (r : ℝ) (o1 o2 : ℕ → ℝ) (j1 j2 : ℕ)
    (hlum : star1.luminosity = star2.luminosity)
    (hcoin : o1 j1 > 0.5 ↔ o2 j2 > 0.5) :
    (determinePlanetType star1 r o1 j1).1 = (determinePlanetType star2 r o2 j2).1 :=
  determinePlanetType_coin_eq star1 star2 r o1 o2 j1 j2 hlum hcoin

/-- Witness for C4 (amended) with two coin draws on the same side of 0.5. -/
theorem claim_C4_amended_witness :
    starL11.luminosity = starL11.luminosity ∧
    ((fun _ : ℕ => (0.9 : ℝ)) 0 > 0.5 ↔ (fun _ : ℕ => (0.7 : ℝ)) 5 > 0.5) ∧
    (determinePlanetType starL11 1 (fun _ => 0.9) 0).1 =
      (determinePlanetType starL11 1 (fun _ => 0.7) 5).1 :=
  ⟨rfl, by norm_num,
    claim_C4_amended starL11 starL11 1 (fun _ => 0.9) (fun _ => 0.7) 0 5 rfl (by norm_num)⟩

/-! ### C8: the axial-tilt table keys (code bug) -/

/-- Claim C8 is contradicted by the code: the `tiltRanges` table is keyed
by `'Dwarf'`, `'Ocean'`, `'Lava'`, but `determinePlanetType` produces the
strings `"Dwarf Planet"`, `"Ocean World"`, `"Lava Planet"`, so those
lookups miss and fall back to the Terrestrial range `[0, 25]`.  At the
failing input (type `"Ocean World"`, `Math.random() = 0`) the sampled
tilt is `0`, outside the claimed Ocean range `[10, 30]`; the dead table
entries themselves carry the claimed ranges. -/
theorem claim_C8_bug :
    (getAxialTilt "Ocean World" (fun _ => 0) 0).1 = 0 ∧
    ¬ (10 ≤ (getAxialTilt "Ocean World" (fun _ => 0) 0).1) ∧
    tiltRange "Ocean World" = tiltRange "Terrestrial" ∧
    tiltRange "Lava Planet" = tiltRange "Terrestrial" ∧
    tiltRange "Dwarf Planet" = tiltRange "Terrestrial" ∧
    tiltRange "Ocean" = (10, 30) ∧
    tiltRange "Lava" = (0, 40) ∧
    tiltRange "Dwarf" = (0, 30) := by
  refine ⟨?_, ?_, ?_, ?_, ?_, ?_, ?_, ?_⟩ <;>
    simp [getAxialTilt, tiltRange]

/-! ### C6: system size and sort order -/

theorem sorted_radius_insertionSort (l : List Planet) :
    List.Sorted (· ≤ ·) ((List.insertionSort planetLE l).map Planet.orbitRadius) := by
  have h := List.sorted_insertionSort planetLE l
  rw [List.Sorted, List.pairwise_map]
  exact h

theorem generateSolarSystem_length_eq (star : Star) (s : ℕ) (o : ℕ → ℝ) (j : ℕ) :
    (generateSolarSystem star s o j).1.length = (getRandomInt 3 18 s).1 := by
  unfold generateSolarSystem
  dsimp only
  rw [(List.perm_insertionSort planetLE _).length_eq]
  split_ifs with h
  · exact aux_length star o _ _ _ _ _ _
  · rw [adjust_length]
    exact aux_length star o _ _ _ _ _ _

/-- Claim C6: every solar system returned by `generateOrbit` is sorted
ascending by `orbitRadius` and contains between 3 and 18 planets,
for every seed and every behaviour of the unseeded `Math.random()`. -/
theorem claim_C6 (seed : ℕ) (o : ℕ → ℝ) (j : ℕ) :
    List.Sorted (· ≤ ·) ((generateOrbit seed o j).solarSystem.map Planet.orbitRadius) ∧
    3 ≤ (generateOrbit seed o j).solarSystem.length ∧
    (generateOrbit seed o j).solarSystem.length ≤ 18 := by
  have hlen : (generateOrbit seed o j).solarSystem.length =
      (getRandomInt 3 18 (generateParentStar seed).2).1 :=
    generateSolarSystem_length_eq _ _ o j
  refine ⟨sorted_radius_insertionSort _, ?_, ?_⟩
  · rw [hlen]
    exact getRandomInt_ge 3 18 _
  · rw [hlen]
    exact getRandomInt_le (by norm_num) _

/-! ### C9: the relocation pass only rewrites one orbitRadius -/

theorem setOrbitRadiusAt_getElem_ne (mid : ℝ) :
    ∀ (l : List Planet) (k m : ℕ), m ≠ k →
      (setOrbitRadiusAt mid l k)[m]? = l[m]? := by
  intro l
  induction l with
  | nil => intro k m _; rfl
  | cons p ps ih =>
    intro k m h
    cases k with
    | zero =>
      cases m with
      | zero => exact absurd rfl h
      | succ m => simp [setOrbitRadiusAt]
    | succ k =>
      cases m with
      | zero => simp [setOrbitRadiusAt]
      | succ m =>
        simp only [setOrbitRadiusAt, List.getElem?_cons_succ]
        exact ih k m (fun hh => h (by rw [hh]))

theorem setOrbitRadiusAt_getElem_eq (mid : ℝ) :
    ∀ (l : List Planet) (k : ℕ),
      (setOrbitRadiusAt mid l k)[k]? =
        l[k]?.map (fun p => { p with orbitRadius := mid }) := by
  intro l
  induction l with
  | nil => intro k; rfl
  | cons p ps ih =>
    intro k
    cases k with
    | zero => simp [setOrbitRadiusAt]
    | succ k =>
      simp only [setOrbitRadiusAt, List.getElem?_cons_succ]
      exact ih k

/-- Claim C9: when the relocation fires (no planet in the zone), the result
differs from the input only at the seeded-chosen index `k`, and there only
in the `orbitRadius` field, which becomes the zone midpoint; the chosen
planet's type, size, radius, atmosphere, moons and axialTilt, and every
other planet entirely, are unchanged. -/
theorem claim_C9 (planets : List Planet) (zone : HabitableZone) (s : ℕ)
    (h : ¬ ∃ p ∈ planets, isInHabitableZone p.orbitRadius zone) :
    (adjustForHabitableZonePlanet planets zone s).1.length = planets.length ∧
    (∀ m, m ≠ Nat.floor (nextVal s * (planets.length : ℝ)) →
      (adjustForHabitableZonePlanet planets zone s).1[m]? = planets[m]?) ∧
    (∀ p, planets[Nat.floor (nextVal s * (planets.length : ℝ))]? = some p →
      (adjustForHabitableZonePlanet planets zone s).1[Nat.floor
          (nextVal s * (planets.length : ℝ))]? =
        some { p with orbitRadius := (zone.innerBoundary + zone.outerBoundary) / 2 }) ∧
    (∀ p q, planets[Nat.floor (nextVal s * (planets.length : ℝ))]? = some p →
      (adjustForHabitableZonePlanet planets zone s).1[Nat.floor
          (nextVal s * (planets.length : ℝ))]? = some q →
      q.type = p.type ∧ q.size = p.size ∧ q.radius = p.radius ∧
        q.atmosphere = p.atmosphere ∧ q.moons = p.moons ∧ q.axialTilt = p.axialTilt ∧
        q.orbitRadius = (zone.innerBoundary + zone.outerBoundary) / 2) := by
  have hbranch : adjustForHabitableZonePlanet planets zone s =
      (setOrbitRadiusAt ((zone.innerBoundary + zone.outerBoundary) / 2) planets
        (Nat.floor (nextVal s * (planets.length : ℝ))), nextState s) := by
    unfold adjustForHabitableZonePlanet
    rw [if_neg h]
  rw [hbranch]
  refine ⟨setOrbitRadiusAt_length _ planets _, ?_, ?_, ?_⟩
  · intro m hm
    exact setOrbitRadiusAt_getElem_ne _ planets _ m hm
  · intro p hp
    rw [setOrbitRadiusAt_getElem_eq, hp]
    rfl
  · intro p q hp hq
    rw [setOrbitRadiusAt_getElem_eq, hp] at hq
    have hq' : ({ p with orbitRadius :=
        (zone.innerBoundary + zone.outerBoundary) / 2 } : Planet) = q :=
      Option.some.inj hq
    rw [← hq']
    exact ⟨rfl, rfl, rfl, rfl, rfl, rfl, rfl⟩

/-- Witness for C9 on the concrete two-planet list outside `demoZone`. -/
theorem claim_C9_witness :
    (¬ ∃ p ∈ demoPlanets, isInHabitableZone p.orbitRadius demoZone) ∧
    ((adjustForHabitableZonePlanet demoPlanets demoZone 0).1.length = demoPlanets.length ∧
    (∀ m, m ≠ Nat.floor (nextVal 0 * (demoPlanets.length : ℝ)) →
      (adjustForHabitableZonePlanet demoPlanets demoZone 0).1[m]? = demoPlanets[m]?) ∧
    (∀ p, demoPlanets[Nat.floor (nextVal 0 * (demoPlanets.length : ℝ))]? = some p →
      (adjustForHabitableZonePlanet demoPlanets demoZone 0).1[Nat.floor
          (nextVal 0 * (demoPlanets.length : ℝ))]? =
        some { p with orbitRadius := (demoZone.innerBoundary + demoZone.outerBoundary) / 2 }) ∧
    (∀ p q, demoPlanets[Nat.floor (nextVal 0 * (demoPlanets.length : ℝ))]? = some p →
      (adjustForHabitableZonePlanet demoPlanets demoZone 0).1[Nat.floor
          (nextVal 0 * (demoPlanets.length : ℝ))]? = some q →
      q.type = p.type ∧ q.size = p.size ∧ q.radius = p.radius ∧
        q.atmosphere = p.atmosphere ∧ q.moons = p.moons ∧ q.axialTilt = p.axialTilt ∧
        q.orbitRadius = (demoZone.innerBoundary + demoZone.outerBoundary) / 2)) := by
  have h : ¬ ∃ p ∈ demoPlanets, isInHabitableZone p.orbitRadius demoZone := by
    simp [demoPlanets, demoZone, isInHabitableZone]
    norm_num
  exact ⟨h, claim_C9 demoPlanets demoZone 0 h⟩

/-! ### C2: the habitability guarantee -/

theorem generateSolarSystem_exists_hz (star : Star) (s : ℕ) (o : ℕ → ℝ) (j : ℕ)
    (hio : star.habitableZone.innerBoundary < star.habitableZone.outerBoundary) :
    ∃ p ∈ (generateSolarSystem star s o j).1,
      isInHabitableZone p.orbitRadius star.habitableZone := by
  unfold generateSolarSystem
  dsimp only
  have hmem : ∀ l : List Planet,
      (∃ p ∈ l, isInHabitableZone p.orbitRadius star.habitableZone) →
      ∃ p ∈ List.insertionSort planetLE l,
        isInHabitableZone p.orbitRadius star.habitableZone := by
    rintro l ⟨p, hp, hz⟩
    exact ⟨p, (List.perm_insertionSort planetLE l).mem_iff.mpr hp, hz⟩
  apply hmem
  split_ifs with hflag
  · rcases aux_flag_sound star o (getRandomInt 3 18 s).1 (getRandomInt 3 18 s).1 0
        (getRandomInt 3 18 s).2 j false hflag with hfalse | hex
    · exact absurd hfalse (by simp)
    · exact hex
  · unfold adjustForHabitableZonePlanet
    split_ifs with hex
    · exact hex
    · dsimp only
      have hlen :
          (generateSolarSystemAux star o (getRandomInt 3 18 s).1 (getRandomInt 3 18 s).1 0
            (getRandomInt 3 18 s).2 j false).1.length = (getRandomInt 3 18 s).1 :=
        aux_length star o _ _ _ _ _ _
      have hlenpos : 0 <
          ((generateSolarSystemAux star o (getRandomInt 3 18 s).1 (getRandomInt 3 18 s).1 0
            (getRandomInt 3 18 s).2 j false).1.length : ℝ) := by
        rw [hlen]
        have h3 := getRandomInt_ge 3 18 s
        have : (3 : ℝ) ≤ ((getRandomInt 3 18 s).1 : ℝ) := by exact_mod_cast h3
        linarith
      have hk : Nat.floor (nextVal
            (generateSolarSystemAux star o (getRandomInt 3 18 s).1 (getRandomInt 3 18 s).1 0
              (getRandomInt 3 18 s).2 j false).2.1 *
            ((generateSolarSystemAux star o (getRandomInt 3 18 s).1 (getRandomInt 3 18 s).1 0
              (getRandomInt 3 18 s).2 j false).1.length : ℝ)) <
          (generateSolarSystemAux star o (getRandomInt 3 18 s).1 (getRandomInt 3 18 s).1 0
            (getRandomInt 3 18 s).2 j false).1.length := by
        rw [Nat.floor_lt (mul_nonneg (nextVal_nonneg _) (le_of_lt hlenpos))]
        nlinarith [nextVal_lt_one (generateSolarSystemAux star o (getRandomInt 3 18 s).1
          (getRandomInt 3 18 s).1 0 (getRandomInt 3 18 s).2 j false).2.1,
          nextVal_nonneg (generateSolarSystemAux star o (getRandomInt 3 18 s).1
          (getRandomInt 3 18 s).1 0 (getRandomInt 3 18 s).2 j false).2.1]
      obtain ⟨p, hp, hpr⟩ := setOrbitRadiusAt_mem _ _ _ hk
      refine ⟨p, hp, ?_, ?_⟩
      · rw [hpr]; linarith
      · rw [hpr]; linarith

/-- Claim C2: for every seed and every behaviour of the unseeded
`Math.random()`, the generated solar system contains at least one planet
inside the habitable zone (the generated luminosity is always positive, so
`inner < outer` and the midpoint relocation lands inside the zone). -/
theorem claim_C2 (seed : ℕ) (o : ℕ → ℝ) (j : ℕ) :
    ∃ p ∈ (generateOrbit seed o j).solarSystem,
      isInHabitableZone p.orbitRadius (generateOrbit seed o j).habitableZone := by
  have hL : (0 : ℝ) < generateStarLuminosity (generateParentStar seed).1.type
      (generateParentStar seed).1.size := generateParentStar_luminosity_pos seed
  exact generateSolarSystem_exists_hz
    { (generateParentStar seed).1 with
        habitableZone := calculateHabitableZone (generateStarLuminosity
          (generateParentStar seed).1.type (generateParentStar seed).1.size) }
    (generateParentStar seed).2 o j (calcZone_inner_lt_outer hL)

/-! ### C1: determinism under the seed (corrected) -/

theorem exists_inZone_of_map_eq {l1 l2 : List Planet} (zone : HabitableZone)
    (h : l1.map Planet.orbitRadius = l2.map Planet.orbitRadius)
    (hex : ∃ p ∈ l1, isInHabitableZone p.orbitRadius zone) :
    ∃ p ∈ l2, isInHabitableZone p.orbitRadius zone := by
  obtain ⟨p, hp, hz⟩ := hex
  have hmem : p.orbitRadius ∈ l2.map Planet.orbitRadius := by
    rw [← h]
    exact List.mem_map_of_mem Planet.orbitRadius hp
  obtain ⟨q, hq, hqr⟩ := List.mem_map.mp hmem
  exact ⟨q, hq, by rw [hqr]; exact hz⟩

theorem adjust_map_radius_eq {l1 l2 : List Planet} (zone : HabitableZone) (s : ℕ)
    (h : l1.map Planet.orbitRadius = l2.map Planet.orbitRadius) :
    (adjustForHabitableZonePlanet l1 zone s).1.map Planet.orbitRadius =
      (adjustForHabitableZonePlanet l2 zone s).1.map Planet.orbitRadius := by
  unfold adjustForHabitableZonePlanet
  by_cases hex : ∃ p ∈ l1, isInHabitableZone p.orbitRadius zone
  · rw [if_pos hex, if_pos (exists_inZone_of_map_eq zone h hex)]
    exact h
  · rw [if_neg hex, if_neg (fun hex2 => hex (exists_inZone_of_map_eq zone h.symm hex2))]
    dsimp only
    have hlen : l1.length = l2.length := by
      have hcg := congrArg List.length h
      simpa using hcg
    rw [setOrbitRadiusAt_map_radius, setOrbitRadiusAt_map_radius, h, hlen]

theorem insertionSort_map_radius_eq {l1 l2 : List Planet}
    (h : l1.map Planet.orbitRadius = l2.map Planet.orbitRadius) :
    (List.insertionSort planetLE l1).map Planet.orbitRadius =
      (List.insertionSort planetLE l2).map Planet.orbitRadius := by
  refine List.eq_of_perm_of_sorted ?_ (sorted_radius_insertionSort l1)
    (sorted_radius_insertionSort l2)
  have p1 := (List.perm_insertionSort planetLE l1).map Planet.orbitRadius
  have p2 := (List.perm_insertionSort planetLE l2).map Planet.orbitRadius
  exact p1.trans (by rw [h]; exact p2.symm)

/-- The final orbit-radius sequence of a generated system does not depend
on the unseeded `Math.random()` oracle. -/
theorem generateSolarSystem_map_radius_irrel (star : Star) (s : ℕ) (o1 o2 : ℕ → ℝ)
    (j1 j2 : ℕ) :
    (generateSolarSystem star s o1 j1).1.map Planet.orbitRadius =
      (generateSolarSystem star s o2 j2).1.map Planet.orbitRadius := by
  unfold generateSolarSystem
  dsimp only
  obtain ⟨hmap, hstate, hflag⟩ := aux_oracle_irrel star (getRandomInt 3 18 s).1 o1 o2
    (getRandomInt 3 18 s).1 0 (getRandomInt 3 18 s).2 j1 j2 false
  apply insertionSort_map_radius_eq
  by_cases hfl :
      (generateSolarSystemAux star o1 (getRandomInt 3 18 s).1 (getRandomInt 3 18 s).1 0
        (getRandomInt 3 18 s).2 j1 false).2.2.2 = true
  · rw [if_pos hfl, if_pos (by rw [← hflag]; exact hfl)]
    exact hmap
  · rw [if_neg hfl, if_neg (by rw [← hflag]; exact hfl)]
    rw [← hstate]
    exact adjust_map_radius_eq star.habitableZone _ hmap

/-- Claim C1 amended: two runs of `generateOrbit` with the same seed agree
on the parent star (type, age, size, mass, luminosity), the habitable
zone, the number of planets, and the orbit radius at every position, for
any behaviour of the unseeded `Math.random()` oracle in each run. -/
theorem claim_C1_amended (seed : ℕ) (o1 o2 : ℕ → ℝ) (j1 j2 : ℕ) :
    (generateOrbit seed o1 j1).parentStar = (generateOrbit seed o2 j2).parentStar ∧
    (generateOrbit seed o1 j1).habitableZone = (generateOrbit seed o2 j2).habitableZone ∧
    (generateOrbit seed o1 j1).solarSystem.length =
      (generateOrbit seed o2 j2).solarSystem.length ∧
    (generateOrbit seed o1 j1).solarSystem.map Planet.orbitRadius =
      (generateOrbit seed o2 j2).solarSystem.map Planet.orbitRadius := by
  refine ⟨rfl, rfl, ?_, ?_⟩
  · have h1 : (generateOrbit seed o1 j1).solarSystem.length =
        (getRandomInt 3 18 (generateParentStar seed).2).1 :=
      generateSolarSystem_length_eq _ _ o1 j1
    have h2 : (generateOrbit seed o2 j2).solarSystem.length =
        (getRandomInt 3 18 (generateParentStar seed).2).1 :=
      generateSolarSystem_length_eq _ _ o2 j2
    rw [h1, h2]
  · exact generateSolarSystem_map_radius_irrel _ _ o1 o2 j1 j2

/-- Spread of every reachable tilt range is at least 20 degrees. -/
theorem tiltRange_spread (t : String) : 20 ≤ (tiltRange t).2 - (tiltRange t).1 := by
  unfold tiltRange
  split_ifs <;> norm_num

/-- With `Math.random()` pinned to 0 in one run and to 1/2 in another, the
axial tilt sampled for the same planet type grows by at least 10. -/
theorem tilt_gap (t : String) (ja jb : ℕ) :
    (getAxialTilt t (fun _ => (0 : ℝ)) ja).1 + 10 ≤
      (getAxialTilt t (fun _ => (1 : ℝ)/2) jb).1 := by
  unfold getAxialTilt
  dsimp only
  linarith [tiltRange_spread t]

theorem genOnePlanet_tilt_gap (star : Star) (i N s : ℕ) (j1 j2 : ℕ) :
    (genOnePlanet star i N s (fun _ => (0 : ℝ)) j1).1.axialTilt + 10 ≤
      (genOnePlanet star i N s (fun _ => (1 : ℝ)/2) j2).1.axialTilt := by
  unfold genOnePlanet
  dsimp only
  have htype := determinePlanetType_coin_eq star star (getRandomOrbitRadius star i N)
    (fun _ => (0 : ℝ)) (fun _ => (1 : ℝ)/2) j1 j2 rfl (by norm_num)
  rw [htype]
  exact tilt_gap _ _ _

theorem aux_tilt_forall2 (star : Star) (N : ℕ) :
    ∀ k i s j1 j2 f1 f2,
      List.Forall₂ (fun p q => p.axialTilt + 10 ≤ q.axialTilt)
        (generateSolarSystemAux star (fun _ => (0 : ℝ)) N k i s j1 f1).1
        (generateSolarSystemAux star (fun _ => (1 : ℝ)/2) N k i s j2 f2).1 := by
  intro k
  induction k with
  | zero => intro i s j1 j2 f1 f2; exact List.Forall₂.nil
  | succ k ih =>
    intro i s j1 j2 f1 f2
    simp only [generateSolarSystemAux]
    refine List.Forall₂.cons (genOnePlanet_tilt_gap star i N s j1 j2) ?_
    rw [genOnePlanet_state, genOnePlanet_state]
    exact ih _ _ _ _ _ _

theorem forall2_tilt_sum {l1 l2 : List Planet}
    (h : List.Forall₂ (fun p q => p.axialTilt + 10 ≤ q.axialTilt) l1 l2) :
    (l1.map Planet.axialTilt).sum + 10 * (l1.length : ℝ) ≤
      (l2.map Planet.axialTilt).sum := by
  induction h with
  | nil => simp
  | cons hpq htail ih =>
    simp only [List.map_cons, List.sum_cons, List.length_cons]
    push_cast
    linarith

theorem insertionSort_tilt_sum (l : List Planet) :
    ((List.insertionSort planetLE l).map Planet.axialTilt).sum =
      (l.map Planet.axialTilt).sum :=
  ((List.perm_insertionSort planetLE l).map Planet.axialTilt).sum_eq

/-- With the unseeded oracle pinned to 0 versus 1/2 the total axial tilt of
the generated system differs by at least 30 (three or more planets, each
at least 10 apart), for any star and any seeded state. -/
theorem generateSolarSystem_tilt_gap (star : Star) (s : ℕ) (j1 j2 : ℕ) :
    ((generateSolarSystem star s (fun _ => (0 : ℝ)) j1).1.map Planet.axialTilt).sum + 30 ≤
      ((generateSolarSystem star s (fun _ => (1 : ℝ)/2) j2).1.map Planet.axialTilt).sum := by
  unfold generateSolarSystem
  dsimp only
  rw [insertionSort_tilt_sum, insertionSort_tilt_sum]
  have hadj : ∀ (l : List Planet) (flag : Bool) (st : ℕ),
      ((if flag then (l, st)
        else adjustForHabitableZonePlanet l star.habitableZone st).1.map Planet.axialTilt) =
        l.map Planet.axialTilt := by
    intro l flag st
    split_ifs with hq
    · rfl
    · exact adjust_map_tilt l star.habitableZone st
  rw [hadj, hadj]
  have hf2 := aux_tilt_forall2 star (getRandomInt 3 18 s).1
    (getRandomInt 3 18 s).1 0 (getRandomInt 3 18 s).2 j1 j2 false false
  have hsum := forall2_tilt_sum hf2
  have hlen : ((generateSolarSystemAux star (fun _ => (0 : ℝ)) (getRandomInt 3 18 s).1
      (getRandomInt 3 18 s).1 0 (getRandomInt 3 18 s).2 j1 false).1.length : ℝ) =
      (((getRandomInt 3 18 s).1 : ℕ) : ℝ) := by
    exact_mod_cast congrArg (fun n : ℕ => (n : ℝ)) (aux_length star _ _ _ _ _ _ _)
  rw [hlen] at hsum
  have h3 : (3 : ℝ) ≤ (((getRandomInt 3 18 s).1 : ℕ) : ℝ) := by
    exact_mod_cast getRandomInt_ge 3 18 s
  linarith

/-- Counterexample to C1 as stated: at seed 0, a run in which the unseeded
`Math.random()` keeps returning 0 and a run in which it keeps returning
1/2 produce different solar systems (their total axial tilts differ by at
least 30), so two calls of `generateOrbit(s)` are not byte-identical —
axial tilt, atmosphere and the habitable-band type coin bypass the seeded
stream. -/
theorem claim_C1_counterexample :
    (generateOrbit 0 (fun _ => (0 : ℝ)) 0).solarSystem ≠
      (generateOrbit 0 (fun _ => (1 : ℝ)/2) 0).solarSystem := by
  intro heq
  have hsum := congrArg (fun l : List Planet => (l.map Planet.axialTilt).sum) heq
  dsimp only at hsum
  have hgap := generateSolarSystem_tilt_gap
    { (generateParentStar 0).1 with
        habitableZone := calculateHabitableZone (generateStarLuminosity
          (generateParentStar 0).1.type (generateParentStar 0).1.size) }
    (generateParentStar 0).2 0 0
  have k1 : (generateOrbit 0 (fun _ => (0 : ℝ)) 0).solarSystem =
      (generateSolarSystem
        { (generateParentStar 0).1 with
            habitableZone := calculateHabitableZone (generateStarLuminosity
              (generateParentStar 0).1.type (generateParentStar 0).1.size) }
        (generateParentStar 0).2 (fun _ => (0 : ℝ)) 0).1 := rfl
  have k2 : (generateOrbit 0 (fun _ => (1 : ℝ)/2) 0).solarSystem =
      (generateSolarSystem
        { (generateParentStar 0).1 with
            habitableZone := calculateHabitableZone (generateStarLuminosity
              (generateParentStar 0).1.type (generateParentStar 0).1.size) }
        (generateParentStar 0).2 (fun _ => (1 : ℝ)/2) 0).1 := rfl
  rw [k1, k2] at hsum
  linarith

/-! ### C10: the ignored third argument of determinePlanetType -/

/-- Claim C10: the third argument passed by `generateSolarSystem` has no
effect on the classification — the result depends only on the star's
luminosity and the orbit radius (and the coin draw), never on whether a
habitable-zone planet was already placed. -/
theorem claim_C10 (star1 star2 : Star) (r : ℝ) (o : ℕ → ℝ) (j : ℕ) (b1 b2 : Bool)
    (hlum : star1.luminosity = star2.luminosity) :
    determinePlanetTypeCallsite star1 r b1 o j = determinePlanetTypeCallsite star2 r b2 o j := by
  unfold determinePlanetTypeCallsite determinePlanetType
  rw [hlum]

/-- Witness for C10: two stars equal in luminosity but nothing else, and
opposite flag values, classify identically. -/
theorem claim_C10_witness :
    (⟨"G", 1, 1, 1, 1.1, ⟨0, 0⟩⟩ : Star).luminosity =
      (⟨"M", 9, 4, 2, 1.1, ⟨3, 7⟩⟩ : Star).luminosity ∧
    determinePlanetTypeCallsite ⟨"G", 1, 1, 1, 1.1, ⟨0, 0⟩⟩ 1 true (fun _ => 1) 0 =
      determinePlanetTypeCallsite ⟨"M", 9, 4, 2, 1.1, ⟨3, 7⟩⟩ 1 false (fun _ => 1) 0 :=
  ⟨rfl, claim_C10 ⟨"G", 1, 1, 1, 1.1, ⟨0, 0⟩⟩ ⟨"M", 9, 4, 2, 1.1, ⟨3, 7⟩⟩ 1
    (fun _ => 1) 0 true false rfl⟩

end Planetgen
